import Mathlib

set_option autoImplicit false

/-!
Shallow embedding of the session-authentication core of MagicStreamMovies:
the server-side token layer (`utils/token_util.go`), the authorization
middleware (`middleware.AuthMiddleware`), the login/refresh handlers
(`controllers/user_controller.go`), and the client-side refresh coordinator
(`hooks/useAxiosPrivate.jsx`).

Modelling conventions:
- Wall-clock time is `Int` seconds (Unix time).
- HMAC signing keys are byte lists (`Key := List Nat`); the HMAC is
  idealized as a perfect MAC: a signature verifies exactly when it was
  produced with the same algorithm, key and payload.  A tampered signature
  is any `Sig` value different from the genuine one.
- A JWT "token string" is either a structurally well-formed signed token
  or an arbitrary malformed string (`TokenStr`).
- The `golang-jwt/v5` library behaviour relevant here is embedded in
  `parseWithClaims`: the algorithm named in the header is resolved
  (unknown algorithms are "unavailable"), the signature is verified with
  the byte-slice key returned by the key function (non-HMAC methods reject
  a byte-slice key with a key-type error; the `none` method rejects any
  key other than its unsafe marker), and claims validation checks `exp`
  only when the claim is present (zero leeway, default parser options).
- Go functions that return `(value, err)` pairs where both components can
  independently be nil are embedded with explicit outcome types so that
  the `(nil, nil)` return and the nil-pointer dereference are
  representable (`ValidateOutcome.nilNil`, `ValidateOutcome.panicNilDeref`).
- Environment-dependent effects (bcrypt comparison, MongoDB calls, a
  `SignedString` marshalling failure) are oracle parameters of the
  handler models; database writes performed by a handler are recorded in
  the response's `tokenWrites` trace.
-/

namespace MagicStream

/-- HMAC key material, as a byte list (Go `[]byte`). -/
abbrev Key := List Nat

/-- JWT signing algorithms registered in `golang-jwt/v5`, plus a case for
algorithm names absent from the registry. -/
inductive Alg where
  | HS256
  | HS384
  | HS512
  | RS256
  | RS384
  | RS512
  | ES256
  | ES384
  | ES512
  | PS256
  | PS384
  | PS512
  | EdDSA
  | NoneAlg
  | unknownAlg (s : String)
deriving DecidableEq, Repr

/-- Whether the method resolved for this algorithm is
`*jwt.SigningMethodHMAC` (the `HS*` family). -/
def Alg.isHMAC : Alg → Bool
  | .HS256 | .HS384 | .HS512 => true
  | _ => false

/-- The claims struct `utils.SignedDetails`: user fields plus the
registered claims this code sets (`Issuer`, `IssuedAt`, `ExpiresAt`).
`issuedAt`/`expiresAt` are `Option` because a parsed token need not carry
them (`*jwt.NumericDate` is a nullable pointer in Go). -/
structure SignedDetails where
  email : String
  firstName : String
  lastName : String
  role : String
  userID : String
  issuer : String
  issuedAt : Option Int
  expiresAt : Option Int
deriving DecidableEq, Repr

/-- Idealized HMAC tag: records the algorithm, key and signed payload.
Signature verification succeeds exactly on the genuine tag. -/
structure Sig where
  alg : Alg
  key : Key
  payload : SignedDetails
deriving DecidableEq, Repr

/-- A structurally well-formed JWT: header algorithm, claims, signature. -/
structure Token where
  alg : Alg
  claims : SignedDetails
  sig : Sig
deriving DecidableEq, Repr

/-- A token string: either decodes to a well-formed token or is malformed
(the empty string, garbage, wrong number of segments, bad JSON, ...). -/
inductive TokenStr where
  | malformed (s : String)
  | wellFormed (t : Token)
deriving DecidableEq, Repr

/-- The Go `error` values that can flow out of the embedded functions. -/
inductive GoErr where
  | malformedToken
  | algUnavailable
  | keyInvalidType
  | noneUnsupported
  | signatureInvalid
  | tokenExpired
  | customTokenExpired
  | refreshTokenExpired
  | namedCookieNotPresent
  | signingError
deriving DecidableEq, Repr

/-- `err.Error()` for the errors above (jwt-library wordings abbreviated;
the two `errors.New` messages in `token_util.go` are verbatim). -/
def GoErr.msg : GoErr → String
  | .malformedToken => "token is malformed"
  | .algUnavailable => "signing method is unavailable"
  | .keyInvalidType => "key is of invalid type"
  | .noneUnsupported => "the method none should not be used"
  | .signatureInvalid => "token signature is invalid"
  | .tokenExpired => "token has invalid claims: token is expired"
  | .customTokenExpired => "token expired"
  | .refreshTokenExpired => "refresh token has expired"
  | .namedCookieNotPresent => "http: named cookie not present"
  | .signingError => "token signing failed"

/-- `Method.Verify` of the resolved signing method, called with the
byte-slice key the key function returns.  HMAC methods compare against the
genuine tag; RSA/ECDSA/RSAPSS/Ed25519 methods reject a `[]byte` key with
`jwt.ErrInvalidKeyType`; the `none` method rejects any key that is not its
unsafe marker. -/
def methodVerify (alg : Alg) (key : Key) (payload : SignedDetails) (sig : Sig) : Option GoErr :=
  if alg.isHMAC then
    if sig = ⟨alg, key, payload⟩ then none else some .signatureInvalid
  else
    match alg with
    | .NoneAlg => some .noneUnsupported
    | _ => some .keyInvalidType

/-- `jwt.ParseWithClaims(tokenString, claims, keyfunc)` where the key
function unconditionally returns the byte-slice `key`: decode, resolve the
header algorithm, verify the signature, then validate claims (`exp`
checked only when present, zero leeway).  On success, returns the header
algorithm (Go: `token.Method`) and the decoded claims. -/
def parseWithClaims (ts : TokenStr) (key : Key) (now : Int) : Except GoErr (Alg × SignedDetails) :=
  match ts with
  | .malformed _ => .error .malformedToken
  | .wellFormed tok =>
    match tok.alg with
    | .unknownAlg _ => .error .algUnavailable
    | _ =>
      match methodVerify tok.alg key tok.claims tok.sig with
      | some e => .error e
      | none =>
        match tok.claims.expiresAt with
        | some exp => if exp < now then .error .tokenExpired else .ok (tok.alg, tok.claims)
        | none => .ok (tok.alg, tok.claims)

/-- Result of `ValidateToken`/`ValidateRefreshToken`, a Go
`(*SignedDetails, error)` pair.  `nilNil` is the `return nil, err` in the
non-HMAC branch, reached with `err == nil`; `panicNilDeref` is the
nil-pointer dereference `claims.ExpiresAt.Time` when the token carries no
`exp` claim. -/
inductive ValidateOutcome where
  | ok (claims : SignedDetails)
  | err (e : GoErr)
  | nilNil
  | panicNilDeref
deriving DecidableEq, Repr

/-- Is the outcome a returned (non-nil) error? -/
def ValidateOutcome.isErr : ValidateOutcome → Bool
  | .err _ => true
  | _ => false

/-- `utils.ValidateToken(tokenString)`: parse with `SECRET_KEY` (here the
parameter `secretKey`), propagate the parse error; otherwise check
`token.Method` is HMAC (on failure the code returns `nil, err` with `err`
nil); then the defense-in-depth double-check
`claims.ExpiresAt.Time.Before(time.Now())`, which dereferences
`ExpiresAt` without a nil check. -/
def ValidateToken (secretKey : Key) (ts : TokenStr) (now : Int) : ValidateOutcome :=
  match parseWithClaims ts secretKey now with
  | .error e => .err e
  | .ok (alg, claims) =>
    if ¬ alg.isHMAC then .nilNil
    else
      match claims.expiresAt with
      | none => .panicNilDeref
      | some exp => if exp < now then .err .customTokenExpired else .ok claims

/-- `utils.ValidateRefreshToken(tokenString)`: identical shape, with
`SECRET_REFRESH_KEY` and the "refresh token has expired" error. -/
def ValidateRefreshToken (secretRefreshKey : Key) (ts : TokenStr) (now : Int) : ValidateOutcome :=
  match parseWithClaims ts secretRefreshKey now with
  | .error e => .err e
  | .ok (alg, claims) =>
    if ¬ alg.isHMAC then .nilNil
    else
      match claims.expiresAt with
      | none => .panicNilDeref
      | some exp => if exp < now then .err .refreshTokenExpired else .ok claims

/-- `utils.GenerateAllTokens(email, firstName, lastName, role, userId)`:
mints the HS256 access token (`exp = now + 24h`) and refresh token
(`exp = now + 7d`), signed with the two distinct secrets.  `SignedString`
can only fail on a marshalling/environment fault, modelled by the
`signFail` oracle; on failure Go returns `("", "", err)`. -/
def GenerateAllTokens (secretKey secretRefreshKey : Key)
    (email firstName lastName role userId : String) (now : Int)
    (signFail : Option GoErr) : TokenStr × TokenStr × Option GoErr :=
  match signFail with
  | some e => (.malformed "", .malformed "", some e)
  | none =>
    let claims : SignedDetails :=
      ⟨email, firstName, lastName, role, userId, "MagicStream", some now, some (now + 24 * 3600)⟩
    let refreshClaims : SignedDetails :=
      ⟨email, firstName, lastName, role, userId, "MagicStream", some now, some (now + 7 * 24 * 3600)⟩
    (.wellFormed ⟨.HS256, claims, ⟨.HS256, secretKey, claims⟩⟩,
     .wellFormed ⟨.HS256, refreshClaims, ⟨.HS256, secretRefreshKey, refreshClaims⟩⟩,
     none)

/-! ## Authorization gate (`middleware.AuthMiddleware`) and cookie extraction -/

/-- The parts of a `*gin.Context` request the auth gate reads: the cookie
jar and the `Authorization` header.  Cookie values are token strings; an
absent cookie is `none` (Go: `c.Cookie` returns `http.ErrNoCookie`). -/
structure GinRequest where
  cookies : String → Option TokenStr
  authHeader : Option String

/-- `utils.GetAccessToken(c)`: the `Authorization`-header extraction is
commented out in the source; the live body reads the `access_token`
cookie and propagates its error. -/
def GetAccessToken (req : GinRequest) : Except GoErr TokenStr :=
  match req.cookies "access_token" with
  | none => .error .namedCookieNotPresent
  | some v => .ok v

/-- Outcome of the middleware for one request. -/
inductive AuthResult where
  | abort (status : Nat) (errMsg : String)
  | proceed (userID role : String)
  | panicked
deriving DecidableEq, Repr

/-- The empty token string. -/
def TokenStr.emptyStr : TokenStr := .malformed ""

/-- `middleware.AuthMiddleware()`: prefer the `access_token` cookie when
present and non-empty; otherwise fall back to `utils.GetAccessToken`
(which, as written, re-reads the same cookie); 401 when that also fails;
401 on an empty token; then `utils.ValidateToken`, aborting 401 with
`err.Error()` on error.  The `nilNil` outcome reaches
`c.Set("userID", claims.UserID)` with `claims == nil` and panics. -/
def AuthMiddleware (secretKey : Key) (req : GinRequest) (now : Int) : AuthResult :=
  let tokenRes : Except Unit TokenStr :=
    match req.cookies "access_token" with
    | some v =>
      if v ≠ TokenStr.emptyStr then .ok v
      else
        match GetAccessToken req with
        | .ok t => .ok t
        | .error _ => .error ()
    | none =>
      match GetAccessToken req with
      | .ok t => .ok t
      | .error _ => .error ()
  match tokenRes with
  | .error _ => .abort 401 "authentication required: no token found in cookie or authorization header"
  | .ok token =>
    if token = TokenStr.emptyStr then .abort 401 "token is required"
    else
      match ValidateToken secretKey token now with
      | .err e => .abort 401 e.msg
      | .ok claims => .proceed claims.userID claims.role
      | .nilNil => .panicked
      | .panicNilDeref => .panicked

/-! ## Login / refresh handlers (`controllers/user_controller.go`) -/

/-- `SameSite` attribute of a written cookie.  `defaultMode` is gin's
`http.SameSiteDefaultMode` (no attribute written), the default of
`c.SetCookie` when `c.SetSameSite` was never called. -/
inductive SameSiteMode where
  | defaultMode
  | laxMode
  | strictMode
  | noneMode
deriving DecidableEq, Repr

/-- One `Set-Cookie` emitted by a handler, with the attributes the source
sets. -/
structure SetCookie where
  name : String
  value : TokenStr
  maxAge : Int
  path : String
  domain : String
  secure : Bool
  httpOnly : Bool
  sameSite : SameSiteMode
deriving DecidableEq, Repr

/-- A stored user record (`models.User`, the fields this core reads). -/
structure User where
  userID : String
  email : String
  firstName : String
  lastName : String
  role : String
  password : String
  favouriteGenres : List String
deriving DecidableEq, Repr

/-- `models.UserResponse` as serialized by `LoginUser` (token fields are
commented out in the source). -/
structure UserResponse where
  userID : String
  firstName : String
  lastName : String
  email : String
  role : String
  favouriteGenres : List String
deriving DecidableEq, Repr

/-- JSON body of a handler response. -/
inductive RespBody where
  | errObj (msg : String)
  | msgObj (msg : String)
  | userObj (u : UserResponse)
deriving DecidableEq, Repr

/-- One `UpdateAllTokens` database write: the token pair persisted into
the `users` collection for a user id. -/
structure TokenWrite where
  userId : String
  token : TokenStr
  refreshToken : TokenStr
deriving DecidableEq, Repr

/-- Observable outcome of one handler run: status, body, the cookies it
set, and the token-store writes it performed. -/
structure HttpResponse where
  status : Nat
  body : RespBody
  cookies : List SetCookie
  tokenWrites : List TokenWrite
deriving DecidableEq, Repr

/-- A handler either produces a response or panics at runtime. -/
inductive HandlerResult where
  | resp (r : HttpResponse)
  | panicked
deriving DecidableEq, Repr

/-- Cookies set by the handler run, `[]` on a panic. -/
def HandlerResult.cookiesOf : HandlerResult → List SetCookie
  | .resp r => r.cookies
  | .panicked => []

/-- Token-store writes performed by the handler run, `[]` on a panic. -/
def HandlerResult.tokenWritesOf : HandlerResult → List TokenWrite
  | .resp r => r.tokenWrites
  | .panicked => []

/-- `models.UserLogin`: the login request body. -/
structure UserLogin where
  email : String
  password : String
deriving DecidableEq, Repr

/-- Environment of one `LoginUser` run: wall clock, the user collection
lookup by email, the bcrypt `CompareHashAndPassword` outcome (oracle over
the stored hash and submitted password), the `SignedString` fault oracle,
and whether `ENV == "production"`. -/
structure LoginEnv where
  now : Int
  findByEmail : String → Option User
  bcryptOk : Bool
  signFail : Option GoErr
  isProduction : Bool

/-- The `access_token` cookie written by `LoginUser` via `http.SetCookie`
(no `Domain` field set). -/
def loginAccessCookie (v : TokenStr) (secure : Bool) (ss : SameSiteMode) : SetCookie :=
  ⟨"access_token", v, 86400, "/", "", secure, true, ss⟩

/-- The `refresh_token` cookie written by `LoginUser`. -/
def loginRefreshCookie (v : TokenStr) (secure : Bool) (ss : SameSiteMode) : SetCookie :=
  ⟨"refresh_token", v, 604800, "/", "", secure, true, ss⟩

/-- `controllers.LoginUser`: bind the body, look the user up by email,
compare the password hash, mint the pair, then set both cookies with
mode-dependent `Secure`/`SameSite` and return the principal.  No database
write happens on any path (the token-persistence call is absent here). -/
def LoginUser (secretKey secretRefreshKey : Key) (body : Option UserLogin)
    (env : LoginEnv) : HandlerResult :=
  match body with
  | none => .resp ⟨400, .errObj "Invalid input data", [], []⟩
  | some userLogin =>
    match env.findByEmail userLogin.email with
    | none => .resp ⟨401, .errObj "User not found", [], []⟩
    | some foundUser =>
      if ¬ env.bcryptOk then .resp ⟨401, .errObj "Invalid password", [], []⟩
      else
        let m := GenerateAllTokens secretKey secretRefreshKey foundUser.email
          foundUser.firstName foundUser.lastName foundUser.role foundUser.userID
          env.now env.signFail
        match m.2.2 with
        | some _ => .resp ⟨500, .errObj "Error generating tokens", [], []⟩
        | none =>
          let sameSiteMode := if env.isProduction then SameSiteMode.noneMode else SameSiteMode.laxMode
          let secureFlag := env.isProduction
          .resp ⟨200,
                 .userObj ⟨foundUser.userID, foundUser.firstName, foundUser.lastName,
                           foundUser.email, foundUser.role, foundUser.favouriteGenres⟩,
                 [loginAccessCookie m.1 secureFlag sameSiteMode,
                  loginRefreshCookie m.2.1 secureFlag sameSiteMode],
                 []⟩

/-- Environment of one `RefreshTokenHandler` run: wall clock, user lookup
by user id, the `SignedString` fault oracle, and the `UpdateOne` fault
oracle. -/
structure RefreshEnv where
  now : Int
  findUser : String → Option User
  signFail : Option GoErr
  dbFail : Option GoErr

/-- The `access_token` cookie written by `RefreshTokenHandler` via
`c.SetCookie("access_token", v, 86400, "/", "localhost", true, true)`:
`Secure` is hardcoded `true`, `SameSite` is gin's default. -/
def refreshAccessCookie (v : TokenStr) : SetCookie :=
  ⟨"access_token", v, 86400, "/", "localhost", true, true, .defaultMode⟩

/-- The `refresh_token` cookie written by `RefreshTokenHandler` via
`c.SetCookie("refresh_token", v, 604800, "/", "localhost", true, true)`. -/
def refreshRefreshCookie (v : TokenStr) : SetCookie :=
  ⟨"refresh_token", v, 604800, "/", "localhost", true, true, .defaultMode⟩

/-- `controllers.RefreshTokenHandler`: read the `refresh_token` cookie
(401 when absent), validate it (401 on error; the `nilNil` outcome panics
on `err.Error()`), look the user up (401 when absent), mint a new pair
discarding the mint error (`newToken, newRefreshToken, _ := ...`),
persist the pair with `UpdateAllTokens` (500 on failure), then set both
cookies and answer 200. -/
def RefreshTokenHandler (secretKey secretRefreshKey : Key)
    (refreshCookie : Option TokenStr) (env : RefreshEnv) : HandlerResult :=
  match refreshCookie with
  | none => .resp ⟨401, .errObj "Unable to retrieve refresh token from cookie", [], []⟩
  | some rt =>
    match ValidateRefreshToken secretRefreshKey rt env.now with
    | .err _ => .resp ⟨401, .errObj "Invalid or expired refresh token", [], []⟩
    | .nilNil => .panicked
    | .panicNilDeref => .panicked
    | .ok claim =>
      match env.findUser claim.userID with
      | none => .resp ⟨401, .errObj "User not found", [], []⟩
      | some user =>
        let m := GenerateAllTokens secretKey secretRefreshKey user.email
          user.firstName user.lastName user.role user.userID env.now env.signFail
        match env.dbFail with
        | some _ => .resp ⟨500, .errObj "Error updating tokens", [], []⟩
        | none =>
          .resp ⟨200, .msgObj "Tokens refreshed",
                 [refreshAccessCookie m.1, refreshRefreshCookie m.2.1],
                 [⟨user.userID, m.1, m.2.1⟩]⟩

/-! ## Client-side refresh coordinator (`hooks/useAxiosPrivate.jsx`)

One hook instance owns the closure variables `isRefreshing` and
`failedQueue` and registers one response interceptor on its axios
instance.  Under the single-threaded cooperative execution model, each
rejection handler runs atomically between suspension points, so the state
transitions below are exactly the synchronous mutations of the source:

- a 401 on the renewal call itself, or on a request already carrying the
  `_retry` marker, is rejected directly;
- a 401 with `isRefreshing` set parks a `(resolve, reject)` continuation
  in `failedQueue`;
- the first 401 sets `_retry` on the originating request, sets
  `isRefreshing`, and issues the single `POST /refresh`;
- when that call settles, `processQueue` resolves or rejects every parked
  continuation, the originating request is replayed (on success) or
  rejected (on failure), and `isRefreshing` is reset in `finally`.

Requests are identified by `Nat` ids; a settled request is recorded with
its outcome. -/

/-- How one intercepted request finally settles: resolved and replayed
after a successful renewal, or rejected. -/
inductive Outcome where
  | replayed
  | rejected
deriving DecidableEq, Repr

/-- State owned by one hook instance: the `isRefreshing` flag, the parked
continuations (request ids, in enqueue order), the originating request
awaiting the in-flight renewal, plus two observation traces: how many
`POST /refresh` calls were issued and which requests settled with which
outcome. -/
structure CoordState where
  isRefreshing : Bool
  failedQueue : List Nat
  originating : Option Nat
  refreshCalls : Nat
  settled : List (Nat × Outcome)
deriving DecidableEq, Repr

/-- Initial hook state: `isRefreshing = false`, empty queue, nothing in
flight. -/
def initCoordState : CoordState :=
  ⟨false, [], none, 0, []⟩

/-- Events driving the coordinator: a request fails with status 401
(carrying or not the `_retry` marker), or the in-flight renewal call
settles (successfully or not). -/
inductive CoordEvent where
  | fail401 (reqId : Nat) (retryMarked : Bool)
  | settle (renewalOk : Bool)
deriving DecidableEq, Repr

/-- The rejection handler of the response interceptor, for a (non-renewal)
request that failed with 401.  With the `_retry` marker set the error is
propagated directly (`return Promise.reject(error)`); while refreshing the
request is parked in `failedQueue`; otherwise the request becomes the
originating one (`_retry = true`, `isRefreshing = true`) and the single
renewal call is issued. -/
def intercept (s : CoordState) (reqId : Nat) (retryMarked : Bool) : CoordState :=
  if retryMarked then
    { s with settled := s.settled ++ [(reqId, .rejected)] }
  else if s.isRefreshing then
    { s with failedQueue := s.failedQueue ++ [reqId] }
  else
    { s with isRefreshing := true, originating := some reqId,
             refreshCalls := s.refreshCalls + 1 }

/-- The continuation of the renewal promise: on success `processQueue`
resolves every parked continuation (each then replays its request) and the
originating request is replayed; on failure every parked continuation and
the originating request are rejected.  `finally` resets `isRefreshing`. -/
def settleRefresh (s : CoordState) (renewalOk : Bool) : CoordState :=
  if s.isRefreshing then
    { isRefreshing := false, failedQueue := [], originating := none,
      refreshCalls := s.refreshCalls,
      settled := s.settled ++
        (s.failedQueue ++ s.originating.toList).map
          (fun i => (i, if renewalOk then Outcome.replayed else Outcome.rejected)) }
  else s

/-- One step of the coordinator. -/
def coordStep (s : CoordState) : CoordEvent → CoordState
  | .fail401 reqId retryMarked => intercept s reqId retryMarked
  | .settle renewalOk => settleRefresh s renewalOk

/-- Run the coordinator over a trace of events. -/
def runTrace (s : CoordState) (events : List CoordEvent) : CoordState :=
  events.foldl coordStep s

/-! ## Concrete fixtures used by witnesses and counterexamples -/

/-- Sample claims: issued at time 0, expiring at 86400 (24 h later). -/
def sampleClaims : SignedDetails :=
  ⟨"a@x.com", "Ada", "Lovelace", "USER", "u1", "MagicStream", some 0, some 86400⟩

/-- Sample access-token signing key (`SECRET_KEY`). -/
def sampleKey : Key := [7, 7, 7]

/-- Sample refresh-token signing key (`SECRET_REFRESH_KEY`). -/
def sampleRefreshKey : Key := [9, 9, 9]

/-- A token whose header declares RS256 instead of the HMAC scheme. -/
def sampleRS256Token : Token :=
  ⟨.RS256, sampleClaims, ⟨.RS256, sampleKey, sampleClaims⟩⟩

/-- Claims carrying no `exp` (and no `iat`) registered claim. -/
def noExpClaims : SignedDetails :=
  ⟨"a@x.com", "Ada", "Lovelace", "USER", "u1", "MagicStream", none, none⟩

/-- An HS256 token genuinely signed with `sampleKey` but with no `exp`
claim. -/
def noExpAccessToken : Token :=
  ⟨.HS256, noExpClaims, ⟨.HS256, sampleKey, noExpClaims⟩⟩

/-- An HS256 token genuinely signed with `sampleRefreshKey` but with no
`exp` claim. -/
def noExpRefreshToken : Token :=
  ⟨.HS256, noExpClaims, ⟨.HS256, sampleRefreshKey, noExpClaims⟩⟩

/-- A refresh-token string whose signature was produced with the wrong
key (`sampleKey` instead of `sampleRefreshKey`): a tampered signature. -/
def tamperedRefresh : TokenStr :=
  .wellFormed ⟨.HS256, sampleClaims, ⟨.HS256, sampleKey, sampleClaims⟩⟩

/-- A genuine refresh-token string: HS256, signed with
`sampleRefreshKey`, not yet expired at time 0. -/
def validRefresh : TokenStr :=
  .wellFormed ⟨.HS256, sampleClaims, ⟨.HS256, sampleRefreshKey, sampleClaims⟩⟩

/-- The stored user record matching `sampleClaims`. -/
def sampleUser : User :=
  ⟨"u1", "a@x.com", "Ada", "Lovelace", "USER", "$2a$10$hash", ["Sci-Fi"]⟩

/-- A user-collection lookup holding exactly `sampleUser`. -/
def sampleFindUser : String → Option User :=
  fun uid => if uid = "u1" then some sampleUser else none

/-- Refresh environment whose every collaborator succeeds. -/
def refreshOkEnv : RefreshEnv := ⟨0, sampleFindUser, none, none⟩

/-- Refresh environment where the token mint (`SignedString`) fails. -/
def refreshSignFailEnv : RefreshEnv := ⟨0, sampleFindUser, some .signingError, none⟩

/-- Refresh environment with no stored users. -/
def refreshEmptyEnv : RefreshEnv := ⟨0, fun _ => none, none, none⟩

/-- A request with no cookies at all but a bearer Authorization header. -/
def noCookieReq : GinRequest :=
  ⟨fun _ => none, some "Bearer eyJ.header.token"⟩

/-! ## Claims -/

/-- **C2.** For every token string whose header declares a signing
algorithm other than the symmetric HMAC scheme, `ValidateToken` returns a
(non-nil) error and never the embedded principal, and likewise
`ValidateRefreshToken`.  In the embedding this holds because the key
function hands the parser a byte-slice key, which every non-HMAC
verification method rejects before the in-function method check is ever
consulted. -/
theorem c2_non_hmac_alg_rejected (secretKey secretRefreshKey : Key) (tok : Token) (now : Int)
    (h : tok.alg.isHMAC = false) :
    (ValidateToken secretKey (.wellFormed tok) now).isErr = true ∧
    (ValidateRefreshToken secretRefreshKey (.wellFormed tok) now).isErr = true := by
  obtain ⟨alg, claims, sig⟩ := tok
  cases alg <;>
    simp_all [ValidateToken, ValidateRefreshToken, parseWithClaims, methodVerify,
      Alg.isHMAC, ValidateOutcome.isErr]

/-- Witness for C2 at the RS256 sample token. -/
theorem c2_non_hmac_alg_rejected_witness :
    sampleRS256Token.alg.isHMAC = false ∧
    ((ValidateToken sampleKey (.wellFormed sampleRS256Token) 0).isErr = true ∧
     (ValidateRefreshToken sampleRefreshKey (.wellFormed sampleRS256Token) 0).isErr = true) :=
  ⟨by decide, c2_non_hmac_alg_rejected sampleKey sampleRefreshKey sampleRS256Token 0 (by decide)⟩

/-- **C7.** A freshly minted access credential (`exp = issued_at + 24h`)
validates successfully at `issued_at + 23:59:59`, returning the embedded
principal claims, and fails with the expiry error at
`issued_at + 24:00:01`. -/
theorem c7_expiry_boundary (secretKey secretRefreshKey : Key)
    (email firstName lastName role userId : String) (now : Int) :
    ValidateToken secretKey
        (GenerateAllTokens secretKey secretRefreshKey email firstName lastName role userId now none).1
        (now + (23 * 3600 + 59 * 60 + 59)) =
      .ok ⟨email, firstName, lastName, role, userId, "MagicStream", some now, some (now + 24 * 3600)⟩ ∧
    ValidateToken secretKey
        (GenerateAllTokens secretKey secretRefreshKey email firstName lastName role userId now none).1
        (now + (24 * 3600 + 1)) =
      .err .tokenExpired := by
  constructor <;>
    simp [GenerateAllTokens, ValidateToken, parseWithClaims, methodVerify, Alg.isHMAC]

/-- **C8.** A request whose configuration already carries the `_retry`
marker and that receives another 401 is rejected directly: no renewal is
triggered (`refreshCalls` unchanged), the queue and phase are untouched. -/
theorem c8_retry_marker_no_second_renewal (s : CoordState) (reqId : Nat) :
    coordStep s (.fail401 reqId true) =
      { s with settled := s.settled ++ [(reqId, Outcome.rejected)] } ∧
    (coordStep s (.fail401 reqId true)).refreshCalls = s.refreshCalls := by
  constructor <;> simp [coordStep, intercept]

/-- **C9** (code evaluated at the failing input): a token whose signature
verifies under the expected key but which carries no `exp` claim drives
both `ValidateToken` and `ValidateRefreshToken` into the nil-pointer
dereference `claims.ExpiresAt.Time` — the post-parse expiry double-check
is not total. -/
theorem c9_no_exp_claim_panics :
    ValidateToken sampleKey (.wellFormed noExpAccessToken) 0 = .panicNilDeref ∧
    ValidateRefreshToken sampleRefreshKey (.wellFormed noExpRefreshToken) 0 = .panicNilDeref := by
  decide

/-- **C5.** Every failing `POST /refresh` — refresh cookie missing, or the
refresh credential invalid, expired, or carrying a tampered signature
(all of which surface as a returned validation error) — answers 401 with
an error body and sets no cookie and performs no write. -/
theorem c5_refresh_failure_401_no_mutation (secretKey secretRefreshKey : Key)
    (rc : Option TokenStr) (env : RefreshEnv)
    (h : rc = none ∨ ∃ rt, rc = some rt ∧
      (ValidateRefreshToken secretRefreshKey rt env.now).isErr = true) :
    ∃ msg, RefreshTokenHandler secretKey secretRefreshKey rc env =
      .resp ⟨401, .errObj msg, [], []⟩ := by
  rcases h with rfl | ⟨rt, rfl, hv⟩
  · exact ⟨"Unable to retrieve refresh token from cookie", rfl⟩
  · refine ⟨"Invalid or expired refresh token", ?_⟩
    unfold RefreshTokenHandler
    cases hval : ValidateRefreshToken secretRefreshKey rt env.now <;>
      simp_all [ValidateOutcome.isErr]

/-- Witness for C5 at a refresh token with a tampered signature. -/
theorem c5_refresh_failure_401_no_mutation_witness :
    ((some tamperedRefresh) = none ∨ ∃ rt, (some tamperedRefresh) = some rt ∧
      (ValidateRefreshToken sampleRefreshKey rt refreshOkEnv.now).isErr = true) ∧
    ∃ msg, RefreshTokenHandler sampleKey sampleRefreshKey (some tamperedRefresh) refreshOkEnv =
      .resp ⟨401, .errObj msg, [], []⟩ :=
  ⟨Or.inr ⟨tamperedRefresh, rfl, by decide⟩,
   c5_refresh_failure_401_no_mutation sampleKey sampleRefreshKey (some tamperedRefresh)
     refreshOkEnv (Or.inr ⟨tamperedRefresh, rfl, by decide⟩)⟩

/-- **C10.** On `POST /refresh` with a valid refresh credential and an
existing user, when minting the new pair fails, the handler discards the
mint error, stores the resulting empty token strings, sets both cookies to
them, and answers 200 with `{message: "Tokens refreshed"}`. -/
theorem c10_mint_error_discarded (secretKey secretRefreshKey : Key)
    (rt : TokenStr) (env : RefreshEnv) (claim : SignedDetails) (user : User) (e : GoErr)
    (hv : ValidateRefreshToken secretRefreshKey rt env.now = .ok claim)
    (hu : env.findUser claim.userID = some user)
    (hs : env.signFail = some e)
    (hd : env.dbFail = none) :
    RefreshTokenHandler secretKey secretRefreshKey (some rt) env =
      .resp ⟨200, .msgObj "Tokens refreshed",
             [refreshAccessCookie (.malformed ""), refreshRefreshCookie (.malformed "")],
             [⟨user.userID, .malformed "", .malformed ""⟩]⟩ := by
  simp [RefreshTokenHandler, hv, hu, hs, hd, GenerateAllTokens]

/-- Witness for C10: valid refresh credential, stored user, failing mint,
succeeding database update. -/
theorem c10_mint_error_discarded_witness :
    ValidateRefreshToken sampleRefreshKey validRefresh refreshSignFailEnv.now = .ok sampleClaims ∧
    refreshSignFailEnv.findUser sampleClaims.userID = some sampleUser ∧
    refreshSignFailEnv.signFail = some .signingError ∧
    refreshSignFailEnv.dbFail = none ∧
    RefreshTokenHandler sampleKey sampleRefreshKey (some validRefresh) refreshSignFailEnv =
      .resp ⟨200, .msgObj "Tokens refreshed",
             [refreshAccessCookie (.malformed ""), refreshRefreshCookie (.malformed "")],
             [⟨sampleUser.userID, .malformed "", .malformed ""⟩]⟩ :=
  ⟨by decide, by decide, by decide, by decide,
   c10_mint_error_discarded sampleKey sampleRefreshKey validRefresh refreshSignFailEnv
     sampleClaims sampleUser .signingError (by decide) (by decide) (by decide) (by decide)⟩

/-- **C3, counterexample.** The claim says no server-side token store is
ever written by the auth layer; but a successful `POST /refresh` persists
the freshly minted token pair into the `users` collection through
`UpdateAllTokens`, so its write trace is non-empty. -/
theorem c3_counterexample :
    (RefreshTokenHandler sampleKey sampleRefreshKey (some validRefresh) refreshOkEnv).tokenWritesOf ≠ [] := by
  decide

/-- **C3, amended.** Credential validity is decided purely from the
token's own signature and expiry (`ValidateToken`/`ValidateRefreshToken`
take only the key, the token string and the clock, and consult no store),
and login persists credentials in cookies only (its token-store write
trace is empty on every path); however, each successful refresh writes the
newly minted token pair to the user's record via `UpdateAllTokens`. -/
theorem c3_amended_login_writes_nothing_refresh_writes_pair
    (secretKey secretRefreshKey : Key) (body : Option UserLogin) (lenv : LoginEnv)
    (rt : TokenStr) (renv : RefreshEnv) (claim : SignedDetails) (user : User)
    (hv : ValidateRefreshToken secretRefreshKey rt renv.now = .ok claim)
    (hu : renv.findUser claim.userID = some user)
    (hd : renv.dbFail = none) :
    (LoginUser secretKey secretRefreshKey body lenv).tokenWritesOf = [] ∧
    (RefreshTokenHandler secretKey secretRefreshKey (some rt) renv).tokenWritesOf =
      [⟨user.userID,
        (GenerateAllTokens secretKey secretRefreshKey user.email user.firstName
          user.lastName user.role user.userID renv.now renv.signFail).1,
        (GenerateAllTokens secretKey secretRefreshKey user.email user.firstName
          user.lastName user.role user.userID renv.now renv.signFail).2.1⟩] := by
  constructor
  · cases body with
    | none => rfl
    | some userLogin =>
      unfold LoginUser
      cases hfind : lenv.findByEmail userLogin.email with
      | none => simp [hfind, HandlerResult.tokenWritesOf]
      | some foundUser =>
        cases hb : lenv.bcryptOk with
        | false => simp [hfind, hb, HandlerResult.tokenWritesOf]
        | true =>
          cases hsf : (GenerateAllTokens secretKey secretRefreshKey foundUser.email
              foundUser.firstName foundUser.lastName foundUser.role foundUser.userID
              lenv.now lenv.signFail).2.2 with
          | none => simp [hfind, hb, hsf, HandlerResult.tokenWritesOf]
          | some e2 => simp [hfind, hb, hsf, HandlerResult.tokenWritesOf]
  · simp [RefreshTokenHandler, hv, hu, hd, HandlerResult.tokenWritesOf]

/-- Witness for the amended C3: a failing-bind login run writes nothing;
the sample successful refresh writes exactly the minted pair. -/
theorem c3_amended_witness :
    ValidateRefreshToken sampleRefreshKey validRefresh refreshOkEnv.now = .ok sampleClaims ∧
    refreshOkEnv.findUser sampleClaims.userID = some sampleUser ∧
    refreshOkEnv.dbFail = none ∧
    ((LoginUser sampleKey sampleRefreshKey none ⟨0, fun _ => none, true, none, false⟩).tokenWritesOf = [] ∧
     (RefreshTokenHandler sampleKey sampleRefreshKey (some validRefresh) refreshOkEnv).tokenWritesOf =
       [⟨sampleUser.userID,
         (GenerateAllTokens sampleKey sampleRefreshKey sampleUser.email sampleUser.firstName
           sampleUser.lastName sampleUser.role sampleUser.userID refreshOkEnv.now refreshOkEnv.signFail).1,
         (GenerateAllTokens sampleKey sampleRefreshKey sampleUser.email sampleUser.firstName
           sampleUser.lastName sampleUser.role sampleUser.userID refreshOkEnv.now refreshOkEnv.signFail).2.1⟩]) :=
  ⟨by decide, by decide, by decide,
   c3_amended_login_writes_nothing_refresh_writes_pair sampleKey sampleRefreshKey none
     ⟨0, fun _ => none, true, none, false⟩ validRefresh refreshOkEnv sampleClaims sampleUser
     (by decide) (by decide) (by decide)⟩

/-- **C4, counterexample.** The claim says that when the access cookie is
absent the gate falls back to a bearer-style `Authorization` header value;
but the fallback (`utils.GetAccessToken`) re-reads the same cookie — the
header-reading code is commented out — so a request with no cookie and a
bearer header is rejected 401 without the header ever being consulted. -/
theorem c4_counterexample :
    noCookieReq.authHeader.isSome = true ∧
    AuthMiddleware sampleKey noCookieReq 0 =
      .abort 401 "authentication required: no token found in cookie or authorization header" := by
  exact ⟨rfl, rfl⟩

/-- **C4, amended.** The gate extracts the token preferring the access
cookie; the result never depends on the `Authorization` header (the
header fallback is commented out, so the fallback re-reads the cookie);
when the cookie is absent it fails closed with 401 without invoking
verification, whatever the header holds; when the cookie is present and
non-empty the outcome is exactly that of verifying the cookie value. -/
theorem c4_amended_cookie_only_gate (secretKey : Key) (req : GinRequest) (now : Int) :
    (AuthMiddleware secretKey req now = AuthMiddleware secretKey ⟨req.cookies, none⟩ now) ∧
    (req.cookies "access_token" = none →
      AuthMiddleware secretKey req now =
        .abort 401 "authentication required: no token found in cookie or authorization header") ∧
    (∀ v, req.cookies "access_token" = some v → v ≠ TokenStr.emptyStr →
      AuthMiddleware secretKey req now =
        match ValidateToken secretKey v now with
        | .err e => .abort 401 e.msg
        | .ok claims => .proceed claims.userID claims.role
        | .nilNil => .panicked
        | .panicNilDeref => .panicked) := by
  refine ⟨rfl, ?_, ?_⟩
  · intro h
    simp [AuthMiddleware, GetAccessToken, h]
  · intro v hv hne
    simp [AuthMiddleware, GetAccessToken, hv, hne]

/-- Witness for the amended C4, at a cookie-less request and at a request
carrying a valid access cookie. -/
theorem c4_amended_cookie_only_gate_witness :
    ((⟨fun _ => none, some "Bearer t"⟩ : GinRequest).cookies "access_token" = none ∧
      AuthMiddleware sampleKey ⟨fun _ => none, some "Bearer t"⟩ 0 =
        .abort 401 "authentication required: no token found in cookie or authorization header") ∧
    ((fun n => if n = "access_token" then some (TokenStr.wellFormed
        ⟨.HS256, sampleClaims, ⟨.HS256, sampleKey, sampleClaims⟩⟩) else none) "access_token" =
        some (TokenStr.wellFormed ⟨.HS256, sampleClaims, ⟨.HS256, sampleKey, sampleClaims⟩⟩) ∧
      TokenStr.wellFormed ⟨.HS256, sampleClaims, ⟨.HS256, sampleKey, sampleClaims⟩⟩ ≠ TokenStr.emptyStr ∧
      AuthMiddleware sampleKey
        ⟨fun n => if n = "access_token" then some (TokenStr.wellFormed
          ⟨.HS256, sampleClaims, ⟨.HS256, sampleKey, sampleClaims⟩⟩) else none, none⟩ 0 =
        .proceed sampleClaims.userID sampleClaims.role) := by
  constructor
  · exact ⟨rfl, (c4_amended_cookie_only_gate sampleKey ⟨fun _ => none, some "Bearer t"⟩ 0).2.1 rfl⟩
  · refine ⟨by decide, by decide, ?_⟩
    have h := (c4_amended_cookie_only_gate sampleKey
      ⟨fun n => if n = "access_token" then some (TokenStr.wellFormed
        ⟨.HS256, sampleClaims, ⟨.HS256, sampleKey, sampleClaims⟩⟩) else none, none⟩ 0).2.2
      (TokenStr.wellFormed ⟨.HS256, sampleClaims, ⟨.HS256, sampleKey, sampleClaims⟩⟩)
      (by decide) (by decide)
    rw [h]
    decide

/-- **C6, counterexample.** The cookies set by a successful `POST
/refresh` carry `Secure = true` with the default (unset) `SameSite`
attribute, matching neither the development rule the claim states
(`Secure = false`, `SameSite = Lax`) nor the production rule
(`SameSite = None`); the refresh handler never consults the deployment
mode. -/
theorem c6_counterexample :
    (RefreshTokenHandler sampleKey sampleRefreshKey (some validRefresh) refreshOkEnv).cookiesOf.map
        (fun c => (c.secure, c.sameSite)) =
      [(true, .defaultMode), (true, .defaultMode)] := by
  decide

/-- **C6, amended.** Cookie issuance at login writes the access cookie
with MaxAge 86400 s and the refresh cookie with MaxAge 604800 s, both
HttpOnly with Path "/", production selecting `Secure = true` with
`SameSite = None` and development `Secure = false` with `SameSite = Lax`;
issuance at successful refresh uses the same MaxAges, HttpOnly and Path
"/", but hardcodes `Secure = true`, leaves `SameSite` at the default and
sets Domain "localhost", independent of the deployment mode. -/
theorem c6_amended_cookie_attributes (secretKey secretRefreshKey : Key)
    (userLogin : UserLogin) (lenv : LoginEnv) (foundUser : User)
    (rt : TokenStr) (renv : RefreshEnv) (claim : SignedDetails) (user : User)
    (hfind : lenv.findByEmail userLogin.email = some foundUser)
    (hb : lenv.bcryptOk = true)
    (hsf : lenv.signFail = none)
    (hv : ValidateRefreshToken secretRefreshKey rt renv.now = .ok claim)
    (hu : renv.findUser claim.userID = some user)
    (hd : renv.dbFail = none) :
    (LoginUser secretKey secretRefreshKey (some userLogin) lenv).cookiesOf =
      [⟨"access_token",
        (GenerateAllTokens secretKey secretRefreshKey foundUser.email foundUser.firstName
          foundUser.lastName foundUser.role foundUser.userID lenv.now none).1,
        86400, "/", "", lenv.isProduction, true,
        if lenv.isProduction then .noneMode else .laxMode⟩,
       ⟨"refresh_token",
        (GenerateAllTokens secretKey secretRefreshKey foundUser.email foundUser.firstName
          foundUser.lastName foundUser.role foundUser.userID lenv.now none).2.1,
        604800, "/", "", lenv.isProduction, true,
        if lenv.isProduction then .noneMode else .laxMode⟩] ∧
    (RefreshTokenHandler secretKey secretRefreshKey (some rt) renv).cookiesOf =
      [⟨"access_token",
        (GenerateAllTokens secretKey secretRefreshKey user.email user.firstName
          user.lastName user.role user.userID renv.now renv.signFail).1,
        86400, "/", "localhost", true, true, .defaultMode⟩,
       ⟨"refresh_token",
        (GenerateAllTokens secretKey secretRefreshKey user.email user.firstName
          user.lastName user.role user.userID renv.now renv.signFail).2.1,
        604800, "/", "localhost", true, true, .defaultMode⟩] := by
  constructor
  · unfold LoginUser
    simp [hfind, hb, hsf, GenerateAllTokens, HandlerResult.cookiesOf,
      loginAccessCookie, loginRefreshCookie]
  · simp [RefreshTokenHandler, hv, hu, hd, HandlerResult.cookiesOf,
      refreshAccessCookie, refreshRefreshCookie]

/-- Witness for the amended C6: a concrete successful development-mode
login and a concrete successful refresh. -/
theorem c6_amended_cookie_attributes_witness :
    ((⟨0, fun e => if e = "a@x.com" then some sampleUser else none, true, none, false⟩ : LoginEnv).findByEmail "a@x.com" = some sampleUser ∧
     ValidateRefreshToken sampleRefreshKey validRefresh refreshOkEnv.now = .ok sampleClaims) ∧
    (LoginUser sampleKey sampleRefreshKey (some ⟨"a@x.com", "p"⟩)
        ⟨0, fun e => if e = "a@x.com" then some sampleUser else none, true, none, false⟩).cookiesOf =
      [⟨"access_token",
        (GenerateAllTokens sampleKey sampleRefreshKey sampleUser.email sampleUser.firstName
          sampleUser.lastName sampleUser.role sampleUser.userID 0 none).1,
        86400, "/", "", false, true, .laxMode⟩,
       ⟨"refresh_token",
        (GenerateAllTokens sampleKey sampleRefreshKey sampleUser.email sampleUser.firstName
          sampleUser.lastName sampleUser.role sampleUser.userID 0 none).2.1,
        604800, "/", "", false, true, .laxMode⟩] ∧
    (RefreshTokenHandler sampleKey sampleRefreshKey (some validRefresh) refreshOkEnv).cookiesOf =
      [⟨"access_token",
        (GenerateAllTokens sampleKey sampleRefreshKey sampleUser.email sampleUser.firstName
          sampleUser.lastName sampleUser.role sampleUser.userID 0 none).1,
        86400, "/", "localhost", true, true, .defaultMode⟩,
       ⟨"refresh_token",
        (GenerateAllTokens sampleKey sampleRefreshKey sampleUser.email sampleUser.firstName
          sampleUser.lastName sampleUser.role sampleUser.userID 0 none).2.1,
        604800, "/", "localhost", true, true, .defaultMode⟩] := by
  have h := c6_amended_cookie_attributes sampleKey sampleRefreshKey ⟨"a@x.com", "p"⟩
    ⟨0, fun e => if e = "a@x.com" then some sampleUser else none, true, none, false⟩ sampleUser
    validRefresh refreshOkEnv sampleClaims sampleUser
    (by decide) (by decide) (by decide) (by decide) (by decide) (by decide)
  exact ⟨⟨by decide, by decide⟩, h.1, h.2⟩

/-- While a renewal is in flight, every further 401 (not `_retry`-marked)
is only parked in `failedQueue`: no renewal call is issued and nothing
else in the state changes. -/
theorem runTrace_fail401_while_refreshing (ids : List Nat) (s : CoordState)
    (h : s.isRefreshing = true) :
    runTrace s (ids.map (fun i => CoordEvent.fail401 i false)) =
      { s with failedQueue := s.failedQueue ++ ids } := by
  induction ids generalizing s with
  | nil => simp [runTrace]
  | cons x xs ih =>
    have hstep : coordStep s (CoordEvent.fail401 x false) =
        { s with failedQueue := s.failedQueue ++ [x] } := by
      simp [coordStep, intercept, h]
    calc runTrace s ((x :: xs).map (fun i => CoordEvent.fail401 i false))
        = runTrace ({ s with failedQueue := s.failedQueue ++ [x] })
            (xs.map (fun i => CoordEvent.fail401 i false)) := by
          simp [runTrace, hstep]
      _ = { s with failedQueue := (s.failedQueue ++ [x]) ++ xs } :=
          ih { s with failedQueue := s.failedQueue ++ [x] } h
      _ = { s with failedQueue := s.failedQueue ++ x :: xs } := by
          simp

/-- **C1.** For any non-empty batch of requests that fail with 401 while
the access credential is expired (none `_retry`-marked, cooperative
single-threaded execution: all rejections are handled before the renewal
settles), exactly one renewal call is issued, and once the renewal
settles every one of them is settled consistently with its outcome —
replayed on success, rejected on failure — with the coordinator back in
the idle state with an empty queue. -/
theorem c1_single_flight (ids : List Nat) (renewalOk : Bool) (h : ids ≠ []) :
    (runTrace initCoordState
        (ids.map (fun i => CoordEvent.fail401 i false) ++ [CoordEvent.settle renewalOk])).refreshCalls = 1 ∧
    (runTrace initCoordState
        (ids.map (fun i => CoordEvent.fail401 i false) ++ [CoordEvent.settle renewalOk])).isRefreshing = false ∧
    (runTrace initCoordState
        (ids.map (fun i => CoordEvent.fail401 i false) ++ [CoordEvent.settle renewalOk])).failedQueue = [] ∧
    (runTrace initCoordState
        (ids.map (fun i => CoordEvent.fail401 i false) ++ [CoordEvent.settle renewalOk])).settled.length = ids.length ∧
    ∀ i ∈ ids, (i, if renewalOk then Outcome.replayed else Outcome.rejected) ∈
      (runTrace initCoordState
        (ids.map (fun i => CoordEvent.fail401 i false) ++ [CoordEvent.settle renewalOk])).settled := by
  obtain ⟨x, xs, rfl⟩ : ∃ y ys, ids = y :: ys := by
    cases ids with
    | nil => exact absurd rfl h
    | cons a as => exact ⟨a, as, rfl⟩
  have hsplit : runTrace initCoordState
      ((x :: xs).map (fun i => CoordEvent.fail401 i false) ++ [CoordEvent.settle renewalOk]) =
      settleRefresh (runTrace (coordStep initCoordState (CoordEvent.fail401 x false))
        (xs.map (fun i => CoordEvent.fail401 i false))) renewalOk := by
    simp only [runTrace, List.map_cons, List.foldl_append, List.foldl_cons, List.foldl_nil]
    rfl
  have hfirst : coordStep initCoordState (CoordEvent.fail401 x false) =
      ⟨true, [], some x, 1, []⟩ := by
    simp [coordStep, intercept, initCoordState]
  have hqueue := runTrace_fail401_while_refreshing xs ⟨true, [], some x, 1, []⟩ rfl
  have hfinal : runTrace initCoordState
      ((x :: xs).map (fun i => CoordEvent.fail401 i false) ++ [CoordEvent.settle renewalOk]) =
      ⟨false, [], none, 1,
        (xs ++ [x]).map (fun i => (i, if renewalOk then Outcome.replayed else Outcome.rejected))⟩ := by
    rw [hsplit, hfirst, hqueue]
    simp [settleRefresh]
  rw [hfinal]
  refine ⟨rfl, rfl, rfl, by simp, ?_⟩
  intro i hi
  have hi2 : i ∈ xs ++ [x] := by
    rcases List.mem_cons.mp hi with rfl | hxs
    · exact List.mem_append.mpr (Or.inr (List.mem_singleton.mpr rfl))
    · exact List.mem_append.mpr (Or.inl hxs)
  exact List.mem_map.mpr ⟨i, hi2, rfl⟩

/-- Witness for C1 at a batch of three requests and a successful renewal. -/
theorem c1_single_flight_witness :
    ([0, 1, 2] : List Nat) ≠ [] ∧
    ((runTrace initCoordState
        (([0, 1, 2] : List Nat).map (fun i => CoordEvent.fail401 i false) ++ [CoordEvent.settle true])).refreshCalls = 1 ∧
     (runTrace initCoordState
        (([0, 1, 2] : List Nat).map (fun i => CoordEvent.fail401 i false) ++ [CoordEvent.settle true])).isRefreshing = false ∧
     (runTrace initCoordState
        (([0, 1, 2] : List Nat).map (fun i => CoordEvent.fail401 i false) ++ [CoordEvent.settle true])).failedQueue = [] ∧
     (runTrace initCoordState
        (([0, 1, 2] : List Nat).map (fun i => CoordEvent.fail401 i false) ++ [CoordEvent.settle true])).settled.length = ([0, 1, 2] : List Nat).length ∧
     ∀ i ∈ ([0, 1, 2] : List Nat), (i, if true then Outcome.replayed else Outcome.rejected) ∈
       (runTrace initCoordState
        (([0, 1, 2] : List Nat).map (fun i => CoordEvent.fail401 i false) ++ [CoordEvent.settle true])).settled) :=
  ⟨by decide, c1_single_flight [0, 1, 2] true (by decide)⟩

end MagicStream
